import Mathlib

/-!
Verification development for the mon_school livecode client.

The embedding covers `mon_school/livecode.py` (protocol client `LiveCode`,
the SVG renderer `_render_svg` / `_render_shape`, the failure classifier
`LiveCodeResult.find_exception_details`, the module-level `execute` and
`livecode_to_svg`) and `mon_school/doctype/lms_sketch/lms_sketch.py`
(the `LMSSketch.render_svg` cached render path).

Modelling conventions:
- Python values flowing through the protocol are JSON values (`json.loads`
  output): the type `J` below.  JSON numbers are modelled as integers
  (the wire protocol only carries integer exit codes and numeric shape
  attributes; floats are out of scope of every property proved here).
- Fallible Python code returns `Except PyExn`, with one constructor per
  class of exception the embedded code can raise.
- The websocket is an external collaborator; its behaviour during one call
  is an input `WsBehavior`: whether connect succeeds, whether send succeeds,
  and the sequence of receive events.  A receive event carries the outcome
  of `json.loads` on the received frame, since `json.loads` itself is an
  external library routine.
- Python dicts are association lists with unique keys, in insertion order.
-/

/-- Exceptions the embedded code can raise or observe. `ioError` stands for
the pair of caught classes `(IOError, websocket.WebSocketException)`;
`jsonError` is `json.JSONDecodeError` (a `ValueError`), which that pair does
not cover. -/
inductive PyExn where
  | ioError : PyExn
  | jsonError : PyExn
  | keyError : String → PyExn
  | typeError : PyExn
  | attributeError : PyExn
  | unboundLocal : PyExn
deriving DecidableEq, Repr

/-- JSON values, the results of `json.loads` on wire messages (and hence
the shape of every inbound message and of every shape node). -/
inductive J where
  | str : String → J
  | int : Int → J
  | bool : Bool → J
  | null : J
  | arr : List J → J
  | obj : List (String × J) → J

/-- Python truthiness of a JSON value (`if value:`). -/
def pyTruthy : J → Bool
  | .str s => !s.isEmpty
  | .int n => n != 0
  | .bool b => b
  | .null => false
  | .arr l => !l.isEmpty
  | .obj l => !l.isEmpty

/-- Python `v == "lit"` for a JSON value `v` and a string literal. -/
def pyEqStr (v : J) (s : String) : Bool :=
  match v with
  | .str t => t == s
  | _ => false

/-- Python `v == 0` for a JSON value `v` (booleans compare equal to the
integers 0/1 in Python). -/
def pyEqZero : J → Bool
  | .int n => n == 0
  | .bool b => b == false
  | _ => false

/-- `m[k]` on a JSON value: `KeyError` on a missing key of a dict,
`TypeError` when the value is not a dict (string indices aside, which the
embedded code never uses). -/
def pyIndex (m : J) (k : String) : Except PyExn J :=
  match m with
  | .obj l =>
      match List.lookup k l with
      | some v => .ok v
      | none => .error (.keyError k)
  | _ => .error .typeError

mutual

/-- Python `str(v)` for a JSON value, as used by the renderer
(`str(v)` on scalars; container values fall back to their repr).  The repr
of nested strings is modelled without quote-escaping; no property proved
below depends on container-valued attributes. -/
def pyStr : J → String
  | .str s => s
  | .int n => toString n
  | .bool b => if b then "True" else "False"
  | .null => "None"
  | .arr l => "[" ++ pyReprSeq l ++ "]"
  | .obj l => "\x7b" ++ pyReprObjSeq l ++ "\x7d"

/-- Python `repr(v)` for a JSON value (used for values inside containers). -/
def pyRepr : J → String
  | .str s => String.singleton (Char.ofNat 39) ++ s ++ String.singleton (Char.ofNat 39)
  | .int n => toString n
  | .bool b => if b then "True" else "False"
  | .null => "None"
  | .arr l => "[" ++ pyReprSeq l ++ "]"
  | .obj l => "\x7b" ++ pyReprObjSeq l ++ "\x7d"

/-- Comma-separated reprs of the elements of a list. -/
def pyReprSeq : List J → String
  | [] => ""
  | [x] => pyRepr x
  | x :: xs => pyRepr x ++ ", " ++ pyReprSeq xs

/-- Comma-separated `key: value` reprs of the entries of a dict. -/
def pyReprObjSeq : List (String × J) → String
  | [] => ""
  | [(k, v)] =>
      String.singleton (Char.ofNat 39) ++ k ++ String.singleton (Char.ofNat 39)
        ++ ": " ++ pyRepr v
  | (k, v) :: xs =>
      String.singleton (Char.ofNat 39) ++ k ++ String.singleton (Char.ofNat 39)
        ++ ": " ++ pyRepr v ++ ", " ++ pyReprObjSeq xs

end

/-- One escaped character of `html.escape` (with its default
`quote=True`): the five replacements `&`, `<`, `>`, `"`, the apostrophe.
Applying the replacements characterwise is equivalent to the sequential
`str.replace` calls of the library routine, because `&` is replaced first
and no replacement text contains a character replaced later. -/
def escCharL (c : Char) : List Char :=
  if c = '&' then ['&', 'a', 'm', 'p', ';']
  else if c = '<' then ['&', 'l', 't', ';']
  else if c = '>' then ['&', 'g', 't', ';']
  else if c = Char.ofNat 34 then ['&', 'q', 'u', 'o', 't', ';']
  else if c = Char.ofNat 39 then ['&', '#', 'x', '2', '7', ';']
  else [c]

/-- `html.escape` over a character list. -/
def escList : List Char → List Char
  | [] => []
  | c :: cs => escCharL c ++ escList cs

/-- `html.escape(s)` with the default `quote=True`. -/
def htmlEscape (s : String) : String := ⟨escList s.data⟩

/-- Membership of a character in a string (helper for stating the
escaping properties). -/
def strHasChar (s : String) (c : Char) : Bool := s.data.any (· == c)

/-- Whether a string contains one of the markup metacharacters `<`, `>`,
`&`. -/
def hasMeta (s : String) : Bool :=
  strHasChar s '&' || strHasChar s '<' || strHasChar s '>'

/-- `dict.pop(k)` on an association list with unique keys: the looked-up
value and the dictionary with the binding removed; `none` models the
`KeyError` of popping a missing key. -/
def dictPop (l : List (String × J)) (k : String) : Option (J × List (String × J)) :=
  match List.lookup k l with
  | some v => some (v, l.filter (fun kv => kv.1 != k))
  | none => none

/-- `dict.pop(k, default)`. -/
def dictPopD (l : List (String × J)) (k : String) (d : J) : J × List (String × J) :=
  match dictPop l k with
  | some p => p
  | none => (d, l)

/-- `k.replace("_", "-")`: since the pattern is the single character `_`,
the replacement is the characterwise map sending `_` to `-`. -/
def hyphenate (k : String) : String :=
  ⟨k.data.map fun c => if c = '_' then '-' else c⟩

/-- The attribute list of `_render_shape` (livecode.py line 103):
`[(k.replace("_", "-"), html.escape(str(v))) for k, v in node.items() if v is not None]`. -/
def renderItems (entries : List (String × J)) : List (String × String) :=
  entries.filterMap fun kv =>
    match kv with
    | (_, J.null) => none
    | (k, v) => some (hyphenate k, htmlEscape (pyStr v))

/-- The attribute string of `_render_shape` (livecode.py line 104):
the space-joined name="value" pairs built from `items`. -/
def renderAttrs (entries : List (String × J)) : String :=
  " ".intercalate ((renderItems entries).map fun it => it.1 ++ "=\"" ++ it.2 ++ "\"")

theorem dictPop_eq_some {l : List (String × J)} {k : String} {v : J}
    {l2 : List (String × J)} (h : dictPop l k = some (v, l2)) :
    List.lookup k l = some v ∧ l2 = l.filter (fun kv => kv.1 != k) := by
  unfold dictPop at h
  cases hl : List.lookup k l <;> simp [hl] at h
  exact ⟨h.1.symm ▸ rfl, h.2.symm⟩

theorem sizeOf_filter_le (l : List (String × J)) (p : String × J → Bool) :
    sizeOf (l.filter p) ≤ sizeOf l := by
  induction l with
  | nil => simp
  | cons hd tl ih =>
      by_cases hp : p hd = true
      · simp [List.filter_cons, hp]; omega
      · simp [List.filter_cons, hp]; omega

theorem sizeOf_lookup_lt (k : String) (v : J) :
    ∀ l : List (String × J), List.lookup k l = some v → sizeOf v < sizeOf l := by
  intro l
  induction l with
  | nil => intro h; simp [List.lookup] at h
  | cons hd tl ih =>
      intro h
      rw [List.lookup_cons] at h
      by_cases hk : (k == hd.1) = true
      · simp [hk] at h
        subst h
        rcases hd with ⟨a, b⟩
        simp
        omega
      · simp [hk] at h
        have := ih h
        simp
        omega

mutual

/-- `_render_shape(node)` (livecode.py lines 99-110), with the mutation of
the input made explicit: the returned `J` is the state of the node after
the call (its `tag` and `children` keys have been popped).  A missing
`tag` key raises `KeyError`; a non-dict node raises `AttributeError`
(no `pop` method); truthy non-list children raise when iterated or when
their elements are rendered. -/
def _render_shape : J → Except PyExn (String × J)
  | .obj entries =>
      match dictPop entries "tag" with
      | none => .error (.keyError "tag")
      | some (tagV, e1) =>
          -- children = node.pop("children", None); the recursion scans the
          -- entries for the first "children" binding (the dict has unique
          -- keys, and "tag" is not "children", so scanning the original
          -- entry list finds the same binding), rendering its value if truthy
          let e2 := (dictPopD e1 "children" J.null).2
          match _render_found_children entries with
          | .error e => .error e
          | .ok none =>
              .ok ("<" ++ pyStr tagV ++ " " ++ renderAttrs e2 ++ " />", J.obj e2)
          | .ok (some parts) =>
              .ok ("<" ++ pyStr tagV ++ " " ++ renderAttrs e2 ++ ">"
                    ++ "\n".intercalate parts
                    ++ "</" ++ pyStr tagV ++ ">", J.obj e2)
  | _ => .error .attributeError

/-- Locate the `children` value among the entries of a node and, when
it is truthy, render it: `.ok none` when the key is absent or its value is
falsy (`if children:` fails and the node is rendered self-closing);
iterating a truthy non-list raises. -/
def _render_found_children : List (String × J) → Except PyExn (Option (List String))
  | [] => .ok none
  | (k, v) :: rest =>
      if k == "children" then
        if pyTruthy v then
          match v with
          | .arr cs => (_render_children cs).map some
          | .str _ => .error .attributeError
          | _ => .error .typeError
        else .ok none
      else _render_found_children rest

/-- `"\n".join(_render_shape(c) for c in children)`: the rendered strings
of the children, in order, stopping at the first raised exception. -/
def _render_children : List J → Except PyExn (List String)
  | [] => .ok []
  | c :: cs => do
      let p ← _render_shape c
      let rest ← _render_children cs
      .ok (p.1 :: rest)

end

/-- `_render_svg(shapes)` (livecode.py lines 92-97), with the post-states
of the shape nodes made explicit (each node has been mutated by
`_render_shape`). -/
def _render_svg_aux : List J → Except PyExn (List (String × J))
  | [] => .ok []
  | s :: t => do
      let p ← _render_shape s
      let r ← _render_svg_aux t
      .ok (p :: r)

/-- `_render_svg(shapes)`: the fixed root element wrapped around the
newline-joined renderings of the top-level shapes.  The second component
is the list of post-states of the input shapes. -/
def _render_svg (shapes : List J) : Except PyExn (String × List J) := do
  let rs ← _render_svg_aux shapes
  .ok ("<svg width=\"300\" height=\"300\" viewBox=\"-150 -150 300 300\" fill=\"none\" stroke=\"black\" xmlns=\"http://www.w3.org/2000/svg\" xmlns:xlink=\"http://www.w3.org/1999/xlink\">\n"
        ++ "\n".intercalate (rs.map Prod.fst)
        ++ "\n"
        ++ "</svg>\n",
       rs.map Prod.snd)

/-- Python substring membership `needle in hay` over character lists. -/
def pyInL (n : List Char) : List Char → Bool
  | [] => n.isEmpty
  | c :: t => n.isPrefixOf (c :: t) || pyInL n t

/-- Python substring membership `needle in hay` for strings. -/
def pyIn (needle hay : String) : Bool := pyInL needle.data hay.data

/-- Python whitespace, the character set stripped by `str.strip()`. -/
def pyIsSpace (c : Char) : Bool :=
  c == ' ' || c == '\t' || c == '\n' || c == '\r' || c == Char.ofNat 11 || c == Char.ofNat 12

/-- Python `s.strip()`. -/
def pyStrip (s : String) : String :=
  ⟨((s.data.dropWhile pyIsSpace).reverse.dropWhile pyIsSpace).reverse⟩

/-- Scan for the first colon, accumulating the characters before it. -/
def splitFirstColonAux : List Char → List Char → String × String
  | [], acc => (⟨acc.reverse⟩, "")
  | c :: rest, acc =>
      if c = ':' then (⟨acc.reverse⟩, ⟨rest⟩)
      else splitFirstColonAux rest (c :: acc)

/-- Python `s.split(":", 1)` for a string containing a colon: the part
before the first colon and everything after it. -/
def splitFirstColon (s : String) : String × String := splitFirstColonAux s.data []

/-- Python `"".join(chunks)` over JSON values: concatenation when every
chunk is a string, `TypeError` otherwise. -/
def pyJoin : List J → Except PyExn String
  | [] => .ok ""
  | .str s :: rest => (pyJoin rest).map (s ++ ·)
  | _ :: _ => .error .typeError

/-- Concatenation of a list of strings (the value `"".join` produces on
all-string input). -/
def concatStrs : List String → String
  | [] => ""
  | s :: t => s ++ concatStrs t

/-- The aggregated result of one execution (class `LiveCodeResult`,
livecode.py lines 112-148).  `__init__` sets `status="success"`,
`error_code=None`, empty `output` and `shapes`. -/
structure LiveCodeResult where
  status : String
  error_code : Option String
  output : List J
  shapes : List J

/-- `LiveCodeResult()`: the freshly initialized result. -/
def LiveCodeResult.init : LiveCodeResult :=
  { status := "success", error_code := none, output := [], shapes := [] }

/-- `LiveCodeResult.mark_failed(error_code)` (livecode.py lines 119-121). -/
def LiveCodeResult.mark_failed (r : LiveCodeResult) (e : String) : LiveCodeResult :=
  { r with status := "failed", error_code := some e }

/-- The traceback marker line tested by the failure classifier. -/
def tracebackMarker : String := "Traceback (most recent call last):"

/-- `LiveCodeResult.find_exception_details()` (livecode.py lines 123-139).
When the status is `failed`, the output is non-empty, the joined output
contains the traceback marker and the last chunk contains no colon, the
Python code falls through to `return exctype.strip(), message.strip()`
with `exctype` never assigned and raises `UnboundLocalError`;
`":" in last_chunk` on a non-string last chunk raises `TypeError`. -/
def LiveCodeResult.find_exception_details (r : LiveCodeResult) :
    Except PyExn (Option String × Option String) :=
  if r.status != "failed" || r.output.isEmpty then .ok (none, none)
  else do
    let out ← pyJoin r.output
    if !(pyIn tracebackMarker out) then .ok (none, none)
    else
      match r.output.getLastD J.null with
      | J.str lastChunk =>
          if pyIn ":" lastChunk then
            let p := splitFirstColon lastChunk
            .ok (some (pyStrip p.1), some (pyStrip p.2))
          else .error .unboundLocal
      | _ => .error .typeError

/-- One event observed by `ws.recv()` inside the receive loop:
a non-empty frame together with the outcome of `json.loads` on it
(`json.loads` is an external library routine, so its verdict is part of
the event), the empty frame that ends the loop, a
`WebSocketTimeoutException`, or any other `IOError`/`WebSocketException`. -/
inductive RecvEvent where
  | text : Except Unit J → RecvEvent
  | closed : RecvEvent
  | timeout : RecvEvent
  | ioError : RecvEvent

/-- The behaviour of the websocket collaborator during one `execute` call:
whether `connect` succeeds, whether `send` succeeds, and the receive
events in order.  An exhausted event list behaves like a read timeout
(a blocking `recv` with a timeout set always eventually times out). -/
structure WsBehavior where
  connectOk : Bool
  sendOk : Bool
  recvs : List RecvEvent

/-- `LiveCode._read_messages(ws)` (livecode.py lines 216-227): collect
parsed frames until an empty frame or a timeout (the timeout is caught
and the messages so far are returned); any other I/O failure propagates,
and a `json.loads` failure propagates as a `ValueError`, which the
`except (IOError, WebSocketException)` of the caller does not catch. -/
def _read_messages : List RecvEvent → Except PyExn (List J)
  | [] => .ok []
  | .closed :: _ => .ok []
  | .timeout :: _ => .ok []
  | .ioError :: _ => .error .ioError
  | .text (.error _) :: _ => .error .jsonError
  | .text (.ok j) :: rest => (_read_messages rest).map (j :: ·)

/-- The outbound execution request (livecode.py lines 182-189). -/
structure ExecMsg where
  msgtype : String
  runtime : String
  code : String
  env : List (String × String)
  files : List (String × String)
  command : List String

/-- The request value built by `LiveCode.execute`: `SKETCH=yes` is put in
the environment exactly when `is_sketch` holds.  `files` is the manifest
returned by `get_livecode_files()` (module `..joy.build`, an external
collaborator), passed through as a parameter. -/
def execRequest (code : String) (isSketch : Bool) (files : List (String × String)) : ExecMsg :=
  { msgtype := "exec", runtime := "python", code := code,
    env := if isSketch then [("SKETCH", "yes")] else [],
    files := files, command := ["python", "start.py"] }

/-- The request passed to `ws.send` during a call, when one is sent
(livecode.py line 192): the connection must have been established. -/
def sentRequest (code : String) (isSketch : Bool) (files : List (String × String))
    (net : WsBehavior) : Option ExecMsg :=
  if net.connectOk then some (execRequest code isSketch files) else none

/-- The message dispatch loop of `LiveCode.execute` (livecode.py lines
195-201), over the already-collected message list, threading the mutable
`result` and the `exit_status` local (initialized to `-1`); `m["msgtype"]`
and the payload lookups can raise `KeyError`/`TypeError`, which `execute`
does not catch.  A message whose `msgtype` is none of the three known tags
falls through every branch and leaves the state unchanged. -/
def processMessages : List J → LiveCodeResult → J → Except PyExn (LiveCodeResult × J)
  | [], r, ex => .ok (r, ex)
  | m :: ms, r, ex => do
      let mt ← pyIndex m "msgtype"
      if pyEqStr mt "write" then do
        let d ← pyIndex m "data"
        processMessages ms { r with output := r.output ++ [d] } ex
      else if pyEqStr mt "shape" then do
        let s ← pyIndex m "shape"
        processMessages ms { r with shapes := r.shapes ++ [s] } ex
      else if pyEqStr mt "exitstatus" then do
        let e ← pyIndex m "exitstatus"
        processMessages ms r e
      else processMessages ms r ex

/-- `LiveCode.execute(code, is_sketch)` (livecode.py lines 170-207).
A failed connect returns `connection-failed` immediately.  The `try`
around send/read/dispatch catches only `(IOError, WebSocketException)`,
marking `connection-reset`; a `json.loads` failure or a dispatch
`KeyError`/`TypeError` propagates to the caller.  After the loop, a final
exit status that is not `== 0` (including the untouched sentinel `-1`)
forces `status="failed"`.  The endpoint URL and timeout only select the
collaborator behaviour, which is abstracted by `net`. -/
def LiveCode.execute (code : String) (isSketch : Bool)
    (files : List (String × String)) (net : WsBehavior) :
    Except PyExn LiveCodeResult :=
  match net.connectOk with
  | false => .ok (LiveCodeResult.init.mark_failed "connection-failed")
  | true =>
    let _msg := execRequest code isSketch files
    let tryRes : Except PyExn (LiveCodeResult × J) :=
      match net.sendOk with
      | false => .error .ioError
      | true => do
        let messages ← _read_messages net.recvs
        processMessages messages LiveCodeResult.init (J.int (-1))
    match tryRes with
    | .ok (r, ex) => .ok (if pyEqZero ex then r else { r with status := "failed" })
    | .error .ioError =>
        -- caught: result was still untouched, mark connection-reset;
        -- the trailing exit-status check then sees the sentinel -1
        let r := LiveCodeResult.init.mark_failed "connection-reset"
        .ok { r with status := "failed" }
    | .error e => .error e

/-- `record_code_run(code, result, context)` (livecode.py lines 35-81):
only its call to the failure classifier can affect the caller — the
document save is wrapped in `try/except Exception` and its failure is
swallowed; the classifier call on a failed result happens before that
`try` and its exception propagates. -/
def record_code_run (result : LiveCodeResult) : Except PyExn Unit :=
  if result.status == "failed" then
    (result.find_exception_details).map (fun _ => ())
  else .ok ()

/-- The module-level `execute(code, is_sketch, context)` (livecode.py
lines 11-33): run the code via a fresh `LiveCode` client, record the run,
return the result as a plain dict (`as_dict` copies `__dict__`, modelled
by the record itself). -/
def execute (code : String) (isSketch : Bool)
    (files : List (String × String)) (net : WsBehavior) :
    Except PyExn LiveCodeResult := do
  let result ← LiveCode.execute code isSketch files net
  let _ ← record_code_run result
  .ok result

/-- `livecode_to_svg(code, is_sketch)` (livecode.py lines 83-90):
`None` unless the execution result has status `success`, otherwise the
rendered SVG of its shapes. -/
def livecode_to_svg (code : String) (isSketch : Bool)
    (files : List (String × String)) (net : WsBehavior) :
    Except PyExn (Option String) := do
  let result ← execute code isSketch files net
  if result.status != "success" then .ok none
  else do
    let p ← _render_svg result.shapes
    .ok (some p.1)

/-- `DEFAULT_IMAGE` (lms_sketch.py lines 12-15): the fixed placeholder,
an empty 300x300 SVG document (the triple-quoted source literal begins
and ends with a newline). -/
def DEFAULT_IMAGE : String :=
  "\n<svg viewBox=\"0 0 300 300\" width=\"300\" xmlns=\"http://www.w3.org/2000/svg\">\n</svg>\n"

/-- The external key-value cache (`frappe.cache()`), modelled as an
association list where a fresh `set` shadows older entries.  Values are
the stored strings; `decode("utf-8")` on retrieval is the identity on
what `set` stored. -/
def Cache := List (String × String)

/-- `cache.get(key)`: `None` on a miss. -/
def cacheGet (c : Cache) (k : String) : Option String := List.lookup k c

/-- `cache.set(key, value)`. -/
def cacheSet (c : Cache) (k : String) (v : String) : Cache := (k, v) :: c

/-- Python truthiness of `cache.get`/`livecode_to_svg` results:
`None` and the empty string are falsy. -/
def optTruthy : Option String → Bool
  | none => false
  | some s => !s.isEmpty

/-- The fields of an `LMS Sketch` document used by the embedded methods. -/
structure Sketch where
  name : String
  title : String
  code : String
  runtime : String
  svg : Option String

namespace LMSSketch

/-- The first `render_svg` definition in the class body (lms_sketch.py
lines 25-44).  It is dead code: the second definition of the same name
later in the class body replaces it when the class body finishes
executing.  It consults `self.svg`, passes
`is_sketch = (self.runtime == "sketch")`, and wraps the render call in
`try/except Exception`, on which `value` keeps its prior binding. -/
def render_svg_shadowed (hashF : String → String) (cache : Cache) (s : Sketch)
    (files : List (String × String)) (net : WsBehavior) :
    Except PyExn (String × Cache) :=
  if optTruthy s.svg then .ok (s.svg.getD "", cache)
  else
    let key := "sketch-" ++ hashF s.code
    let cached := cacheGet cache key
    if optTruthy cached then .ok (cached.getD "", cache)
    else
      let value : Option String :=
        match livecode_to_svg s.code (s.runtime == "sketch") files net with
        | .ok v => v
        | .error _ => cached
      let cache2 := if optTruthy value then cacheSet cache key (value.getD "") else cache
      .ok (if optTruthy value then value.getD "" else DEFAULT_IMAGE, cache2)

/-- The effective `render_svg` (lms_sketch.py lines 88-99): the second
definition of the name in the class body, which is the one bound on the
class.  `hashF` abstracts `hashlib.md5(...).hexdigest()`.  On a miss it
calls `livecode_to_svg(self.code)` — `is_sketch` is not passed and
defaults to `False` — with no surrounding `try/except`, so an exception
from execution or rendering propagates to the caller.  A truthy rendered
value is cached; the return value falls back to `DEFAULT_IMAGE`. -/
def render_svg (hashF : String → String) (cache : Cache) (s : Sketch)
    (files : List (String × String)) (net : WsBehavior) :
    Except PyExn (String × Cache) :=
  let key := "sketch-" ++ hashF s.code
  let cached := cacheGet cache key
  if optTruthy cached then .ok (cached.getD "", cache)
  else do
    let value ← livecode_to_svg s.code false files net
    let cache2 := if optTruthy value then cacheSet cache key (value.getD "") else cache
    .ok (if optTruthy value then value.getD "" else DEFAULT_IMAGE, cache2)

end LMSSketch
@[simp] theorem exceptBind_ok {ε α β : Type} (a : α) (f : α → Except ε β) :
    (Except.ok a >>= f) = f a := rfl

@[simp] theorem exceptBind_error {ε α β : Type} (e : ε) (f : α → Except ε β) :
    ((Except.error e : Except ε α) >>= f) = Except.error e := rfl

@[simp] theorem exceptMap_ok {ε α β : Type} (a : α) (f : α → β) :
    (Except.ok a : Except ε α).map f = Except.ok (f a) := rfl

@[simp] theorem exceptMap_error {ε α β : Type} (e : ε) (f : α → β) :
    (Except.error e : Except ε α).map f = Except.error e := rfl

theorem processMessages_ok_preserves :
    ∀ (ms : List J) (r : LiveCodeResult) (ex : J) (pr : LiveCodeResult × J),
      processMessages ms r ex = .ok pr →
      pr.1.status = r.status ∧ pr.1.error_code = r.error_code := by
  intro ms
  induction ms with
  | nil =>
      intro r ex pr h
      simp [processMessages] at h
      subst h
      exact ⟨rfl, rfl⟩
  | cons m t ih =>
      intro r ex pr h
      simp only [processMessages] at h
      cases hmt : pyIndex m "msgtype" with
      | error e => rw [hmt] at h; simp at h
      | ok mt =>
          rw [hmt] at h
          simp only [exceptBind_ok] at h
          by_cases hw : pyEqStr mt "write" = true
          · simp only [hw, if_true] at h
            cases hd : pyIndex m "data" with
            | error e => rw [hd] at h; simp at h
            | ok d =>
                rw [hd] at h
                simp only [exceptBind_ok] at h
                simpa using ih _ _ _ h
          · simp only [Bool.not_eq_true] at hw
            simp only [hw, Bool.false_eq_true, if_false] at h
            by_cases hs : pyEqStr mt "shape" = true
            · simp only [hs, if_true] at h
              cases hd : pyIndex m "shape" with
              | error e => rw [hd] at h; simp at h
              | ok d =>
                  rw [hd] at h
                  simp only [exceptBind_ok] at h
                  simpa using ih _ _ _ h
            · simp only [Bool.not_eq_true] at hs
              simp only [hs, Bool.false_eq_true, if_false] at h
              by_cases he : pyEqStr mt "exitstatus" = true
              · simp only [he, if_true] at h
                cases hd : pyIndex m "exitstatus" with
                | error e => rw [hd] at h; simp at h
                | ok d =>
                    rw [hd] at h
                    simp only [exceptBind_ok] at h
                    exact ih _ _ _ h
              · simp only [Bool.not_eq_true] at he
                simp only [he, Bool.false_eq_true, if_false] at h
                exact ih _ _ _ h

theorem pyIndex_error_shape (m : J) (k : String) (e : PyExn)
    (h : pyIndex m k = .error e) : e = .keyError k ∨ e = .typeError := by
  cases m with
  | obj l =>
      simp only [pyIndex] at h
      cases hl : List.lookup k l <;> rw [hl] at h <;> simp at h
      left; exact h.symm
  | str s => simp [pyIndex] at h; right; exact h.symm
  | int n => simp [pyIndex] at h; right; exact h.symm
  | bool b => simp [pyIndex] at h; right; exact h.symm
  | null => simp [pyIndex] at h; right; exact h.symm
  | arr l => simp [pyIndex] at h; right; exact h.symm

theorem processMessages_ne_ioError :
    ∀ (ms : List J) (r : LiveCodeResult) (ex : J),
      processMessages ms r ex ≠ .error .ioError ∧
      processMessages ms r ex ≠ .error .jsonError := by
  intro ms
  induction ms with
  | nil => intro r ex; simp [processMessages]
  | cons m t ih =>
      intro r ex
      simp only [processMessages]
      cases hmt : pyIndex m "msgtype" with
      | error e =>
          rcases pyIndex_error_shape m "msgtype" e hmt with rfl | rfl <;> simp
      | ok mt =>
          simp only [exceptBind_ok]
          by_cases hw : pyEqStr mt "write" = true
          · simp only [hw, if_true]
            cases hd : pyIndex m "data" with
            | error e =>
                rcases pyIndex_error_shape m "data" e hd with rfl | rfl <;> simp
            | ok d => simp only [exceptBind_ok]; exact ih _ _
          · simp only [Bool.not_eq_true] at hw
            simp only [hw, Bool.false_eq_true, if_false]
            by_cases hs : pyEqStr mt "shape" = true
            · simp only [hs, if_true]
              cases hd : pyIndex m "shape" with
              | error e =>
                  rcases pyIndex_error_shape m "shape" e hd with rfl | rfl <;> simp
              | ok d => simp only [exceptBind_ok]; exact ih _ _
            · simp only [Bool.not_eq_true] at hs
              simp only [hs, Bool.false_eq_true, if_false]
              by_cases he : pyEqStr mt "exitstatus" = true
              · simp only [he, if_true]
                cases hd : pyIndex m "exitstatus" with
                | error e =>
                    rcases pyIndex_error_shape m "exitstatus" e hd with rfl | rfl <;> simp
                | ok d => simp only [exceptBind_ok]; exact ih _ _
              · simp only [Bool.not_eq_true] at he
                simp only [he, Bool.false_eq_true, if_false]
                exact ih _ _

/-- Case characterization of `LiveCode.execute` results: a returned (not
raised) result comes from exactly one of the four control paths. -/
theorem execute_ok_cases (code : String) (isSketch : Bool)
    (files : List (String × String)) (net : WsBehavior) (r : LiveCodeResult)
    (h : LiveCode.execute code isSketch files net = .ok r) :
    (net.connectOk = false ∧ r = LiveCodeResult.init.mark_failed "connection-failed")
    ∨ (net.connectOk = true ∧ net.sendOk = false ∧
        r = { LiveCodeResult.init.mark_failed "connection-reset" with status := "failed" })
    ∨ (net.connectOk = true ∧ net.sendOk = true ∧
        _read_messages net.recvs = .error .ioError ∧
        r = { LiveCodeResult.init.mark_failed "connection-reset" with status := "failed" })
    ∨ (net.connectOk = true ∧ net.sendOk = true ∧
        ∃ ms pr, _read_messages net.recvs = .ok ms ∧
          processMessages ms LiveCodeResult.init (J.int (-1)) = .ok pr ∧
          r = (if pyEqZero pr.2 then pr.1 else { pr.1 with status := "failed" })) := by
  unfold LiveCode.execute at h
  cases hc : net.connectOk with
  | false =>
      rw [hc] at h
      simp only [Except.ok.injEq] at h
      exact Or.inl ⟨rfl, h.symm⟩
  | true =>
      rw [hc] at h
      simp only at h
      cases hs : net.sendOk with
      | false =>
          rw [hs] at h
          simp only [Except.ok.injEq] at h
          exact Or.inr (Or.inl ⟨rfl, rfl, h.symm⟩)
      | true =>
          rw [hs] at h
          cases hr : _read_messages net.recvs with
          | error e =>
              rw [hr] at h
              simp only [exceptBind_error] at h
              cases e with
              | ioError =>
                  simp only [Except.ok.injEq] at h
                  exact Or.inr (Or.inr (Or.inl ⟨rfl, rfl, rfl, h.symm⟩))
              | jsonError => simp at h
              | keyError k => simp at h
              | typeError => simp at h
              | attributeError => simp at h
              | unboundLocal => simp at h
          | ok ms =>
              rw [hr] at h
              simp only [exceptBind_ok] at h
              cases hp : processMessages ms LiveCodeResult.init (J.int (-1)) with
              | error e =>
                  rw [hp] at h
                  rcases e with _ | _ | k | _ | _ | _
                  · exact absurd hp (processMessages_ne_ioError ms _ _).1
                  · exact absurd hp (processMessages_ne_ioError ms _ _).2
                  · simp at h
                  · simp at h
                  · simp at h
                  · simp at h
              | ok pr =>
                  rw [hp] at h
                  simp only [Except.ok.injEq] at h
                  exact Or.inr (Or.inr (Or.inr ⟨rfl, rfl, ms, pr, rfl, hp, h.symm⟩))

/-- Claim C1: for every call to `LiveCode.execute` that returns a result,
the result has status `failed` if and only if the connection could not be
established, an I/O failure occurred during send or the read stream, or the
exit status aggregated by the receive loop is not zero — the aggregate
starts at the sentinel `-1` and is overwritten by each `exitstatus`
message, so it is non-zero exactly when no exit-status message was ever
received or the last received exit status is non-zero.  In every other
case the status is `success`. -/
theorem C1_status_iff (code : String) (isSketch : Bool) (files : List (String × String))
    (net : WsBehavior) (r : LiveCodeResult)
    (h : LiveCode.execute code isSketch files net = .ok r) :
    (r.status = "failed" ↔
      net.connectOk = false ∨ net.sendOk = false ∨
      _read_messages net.recvs = .error .ioError ∨
      (∃ ms pr, _read_messages net.recvs = .ok ms ∧
        processMessages ms LiveCodeResult.init (J.int (-1)) = .ok pr ∧
        pyEqZero pr.2 = false)) := by
  rcases execute_ok_cases code isSketch files net r h with
    ⟨hc, rfl⟩ | ⟨hc, hs, rfl⟩ | ⟨hc, hs, hr, rfl⟩ | ⟨hc, hs, ms, pr, hms, hpr, rfl⟩
  · exact ⟨fun _ => Or.inl hc, fun _ => rfl⟩
  · exact ⟨fun _ => Or.inr (Or.inl hs), fun _ => rfl⟩
  · exact ⟨fun _ => Or.inr (Or.inr (Or.inl hr)), fun _ => rfl⟩
  · by_cases hz : pyEqZero pr.2 = true
    · rw [if_pos hz]
      have hpres := processMessages_ok_preserves ms _ _ _ hpr
      constructor
      · intro hst
        rw [hpres.1] at hst
        simp [LiveCodeResult.init] at hst
      · rintro (h1 | h2 | h3 | ⟨ms2, pr2, hm2, hp2, hz2⟩)
        · exact absurd (hc.symm.trans h1) (by simp)
        · exact absurd (hs.symm.trans h2) (by simp)
        · have := hms.symm.trans h3
          simp at this
        · have hmm := hms.symm.trans hm2
          simp only [Except.ok.injEq] at hmm
          subst hmm
          have hpp := hpr.symm.trans hp2
          simp only [Except.ok.injEq] at hpp
          subst hpp
          simp [hz] at hz2
    · rw [if_neg hz]
      constructor
      · intro _
        exact Or.inr (Or.inr (Or.inr ⟨ms, pr, hms, hpr, by simpa using hz⟩))
      · intro _; rfl

/-- Witness for claim C1 at a concrete connection failure. -/
theorem C1_witness :
    LiveCode.execute "print(1)" false [] ⟨false, true, []⟩
        = .ok (LiveCodeResult.init.mark_failed "connection-failed")
    ∧ ((LiveCodeResult.init.mark_failed "connection-failed").status = "failed" ↔
        (⟨false, true, []⟩ : WsBehavior).connectOk = false ∨
        (⟨false, true, []⟩ : WsBehavior).sendOk = false ∨
        _read_messages (⟨false, true, []⟩ : WsBehavior).recvs = .error .ioError ∨
        (∃ ms pr, _read_messages (⟨false, true, []⟩ : WsBehavior).recvs = .ok ms ∧
          processMessages ms LiveCodeResult.init (J.int (-1)) = .ok pr ∧
          pyEqZero pr.2 = false)) :=
  ⟨rfl, C1_status_iff "print(1)" false [] ⟨false, true, []⟩ _ rfl⟩

/-- Counterexample to claim C5 as stated: a run whose only message is a
non-zero exit status ends with status forced to `failed`, but the failure
reason is `None` — it is never set to `nonzero-exit`. -/
theorem C5_counterexample :
    LiveCode.execute "c" false []
        ⟨true, true, [.text (.ok (J.obj [("msgtype", J.str "exitstatus"), ("exitstatus", J.int 1)]))]⟩
      = .ok { status := "failed", error_code := none, output := [], shapes := [] }
    ∧ ({ status := "failed", error_code := none, output := [], shapes := [] } : LiveCodeResult).status
        = "failed"
    ∧ ({ status := "failed", error_code := none, output := [], shapes := [] } : LiveCodeResult).error_code
        ≠ some "nonzero-exit" :=
  ⟨rfl, rfl, by simp⟩

/-- Claim C5 as amended: after the receive loop, if the aggregated exit
status is missing (sentinel `-1`) or non-zero, the status of a returned
result is forced to `failed`; the failure reason, however, is never set to
`nonzero-exit` — it is left unchanged, so it is `None` unless a connection
failure already set `connection-failed` or `connection-reset`. -/
theorem C5_amended (code : String) (isSketch : Bool) (files : List (String × String))
    (net : WsBehavior) (r : LiveCodeResult) (ms : List J) (pr : LiveCodeResult × J)
    (h : LiveCode.execute code isSketch files net = .ok r)
    (hms : _read_messages net.recvs = .ok ms)
    (hpr : processMessages ms LiveCodeResult.init (J.int (-1)) = .ok pr)
    (hz : pyEqZero pr.2 = false) :
    r.status = "failed" ∧ r.error_code ≠ some "nonzero-exit" ∧
    (r.error_code = none ∨ r.error_code = some "connection-failed" ∨
      r.error_code = some "connection-reset") := by
  rcases execute_ok_cases code isSketch files net r h with
    ⟨hc, rfl⟩ | ⟨hc, hs, rfl⟩ | ⟨hc, hs, hr, rfl⟩ | ⟨hc, hs, ms2, pr2, hms2, hpr2, rfl⟩
  · exact ⟨rfl, by simp [LiveCodeResult.mark_failed], Or.inr (Or.inl rfl)⟩
  · exact ⟨rfl, by simp [LiveCodeResult.mark_failed], Or.inr (Or.inr rfl)⟩
  · exact ⟨rfl, by simp [LiveCodeResult.mark_failed], Or.inr (Or.inr rfl)⟩
  · have hmm := hms.symm.trans hms2
    simp only [Except.ok.injEq] at hmm
    subst hmm
    have hpp := hpr.symm.trans hpr2
    simp only [Except.ok.injEq] at hpp
    subst hpp
    rw [if_neg (by simp [hz])]
    have hpres := processMessages_ok_preserves ms _ _ _ hpr
    refine ⟨rfl, ?_, Or.inl ?_⟩
    · rw [hpres.2]; simp [LiveCodeResult.init]
    · rw [hpres.2]; rfl

/-- Witness for the amended claim C5 at a concrete non-zero exit run. -/
theorem C5_witness :
    ({ status := "failed", error_code := none, output := [], shapes := [] } : LiveCodeResult).status
        = "failed"
    ∧ ({ status := "failed", error_code := none, output := [], shapes := [] } : LiveCodeResult).error_code
        ≠ some "nonzero-exit"
    ∧ (({ status := "failed", error_code := none, output := [], shapes := [] } : LiveCodeResult).error_code = none ∨
       ({ status := "failed", error_code := none, output := [], shapes := [] } : LiveCodeResult).error_code = some "connection-failed" ∨
       ({ status := "failed", error_code := none, output := [], shapes := [] } : LiveCodeResult).error_code = some "connection-reset") := by
  have h := C5_amended "c" false []
      ⟨true, true, [.text (.ok (J.obj [("msgtype", J.str "exitstatus"), ("exitstatus", J.int 1)]))]⟩
      { status := "failed", error_code := none, output := [], shapes := [] }
      [J.obj [("msgtype", J.str "exitstatus"), ("exitstatus", J.int 1)]]
      ({ status := "success", error_code := none, output := [], shapes := [] }, J.int 1)
      rfl rfl rfl rfl
  exact ⟨h.1, h.2.1, h.2.2⟩

/-- Counterexample to claim C6 as stated: an inbound frame that cannot be
parsed as JSON is not silently skipped — `json.loads` raises a
`ValueError` that the `except (IOError, WebSocketException)` clause does
not catch, aborting the loop and propagating out of `execute`. -/
theorem C6_counterexample :
    LiveCode.execute "c" false [] ⟨true, true, [.text (.error ())]⟩ = .error .jsonError := rfl

/-- Claim C6 as amended: a parsed message whose `msgtype` tag is unknown
is silently skipped — it does not abort the loop, does not raise, and
leaves the aggregated result unchanged; but a message that cannot be
parsed as JSON raises an uncaught error that aborts the receive loop and
propagates out of `execute`. -/
theorem C6_amended :
    (∀ (entries : List (String × J)) (ms : List J) (r : LiveCodeResult) (ex v : J),
      List.lookup "msgtype" entries = some v →
      pyEqStr v "write" = false → pyEqStr v "shape" = false → pyEqStr v "exitstatus" = false →
      processMessages (J.obj entries :: ms) r ex = processMessages ms r ex)
    ∧ (∀ (code : String) (isSketch : Bool) (files : List (String × String))
        (rest : List RecvEvent),
      LiveCode.execute code isSketch files ⟨true, true, RecvEvent.text (.error ()) :: rest⟩
        = .error .jsonError) := by
  constructor
  · intro entries ms r ex v hv hw hs he
    simp only [processMessages, pyIndex, hv, exceptBind_ok, hw, hs, he,
      Bool.false_eq_true, if_false]
  · intro code isSketch files rest
    rfl

/-- Witness for the amended claim C6: a concrete unknown-tag message is
skipped, and a concrete unparseable frame aborts `execute`. -/
theorem C6_witness :
    processMessages [J.obj [("msgtype", J.str "mystery")]] LiveCodeResult.init (J.int 7)
        = processMessages [] LiveCodeResult.init (J.int 7)
    ∧ LiveCode.execute "x" false [] ⟨true, true, [RecvEvent.text (.error ())]⟩
        = .error .jsonError :=
  ⟨C6_amended.1 [("msgtype", J.str "mystery")] [] LiveCodeResult.init (J.int 7)
      (J.str "mystery") rfl rfl rfl rfl,
   C6_amended.2 "x" false [] []⟩

/-- Claim C4, the code-level behaviour at the failing input: on a failed
result whose concatenated output contains the traceback marker but whose
last chunk has no colon, the classifier does not return `(None, None)` —
it raises `UnboundLocalError` (the variable `exctype` is referenced before
assignment on the fall-through return), contradicting the claim that the
classifier never raises. -/
theorem C4_classifier_crash :
    LiveCodeResult.find_exception_details
      { status := "failed", error_code := none,
        output := [J.str "Traceback (most recent call last):\n", J.str "KeyboardInterrupt\n"],
        shapes := [] }
      = .error .unboundLocal := rfl

theorem pyJoin_map_str : ∀ (l : List String), pyJoin (l.map J.str) = .ok (concatStrs l) := by
  intro l
  induction l with
  | nil => rfl
  | cons s t ih => simp [pyJoin, concatStrs, ih]

theorem getLastD_map_str : ∀ (t : List String) (d : String),
    (t.map J.str).getLastD (J.str d) = J.str (t.getLastD d) := by
  intro t
  induction t with
  | nil => intro d; rfl
  | cons a t ih =>
      intro d
      simp only [List.map_cons, List.getLastD_cons]
      exact ih a

theorem getLastD_map_str_null (c : String) (t : List String) :
    ((c :: t).map J.str).getLastD J.null = J.str ((c :: t).getLastD "") := by
  simp only [List.map_cons, List.getLastD_cons]
  exact getLastD_map_str t c

/-- Claim C8: for every failed result whose output is a non-empty list of
string chunks whose concatenation contains the traceback marker and whose
last chunk contains a colon, the classifier splits the last chunk at its
first colon, strips Python whitespace from both parts, and returns them as
the kind and the message. -/
theorem C8_classifier_split (chunks : List String) (r : LiveCodeResult)
    (hst : r.status = "failed")
    (hout : r.output = chunks.map J.str)
    (hne : chunks ≠ [])
    (hmark : pyIn tracebackMarker (concatStrs chunks) = true)
    (hcolon : pyIn ":" (chunks.getLastD "") = true) :
    r.find_exception_details =
      .ok (some (pyStrip (splitFirstColon (chunks.getLastD "")).1),
           some (pyStrip (splitFirstColon (chunks.getLastD "")).2)) := by
  obtain ⟨c, t, rfl⟩ : ∃ c t, chunks = c :: t := by
    cases chunks with
    | nil => exact absurd rfl hne
    | cons c t => exact ⟨c, t, rfl⟩
  unfold LiveCodeResult.find_exception_details
  rw [hst, hout]
  simp only [bne_self_eq_false, List.map_cons, List.isEmpty_cons, Bool.or_self,
    Bool.false_eq_true, if_false, Bool.or_false]
  rw [show (J.str c :: t.map J.str) = ((c :: t).map J.str) from rfl, pyJoin_map_str]
  simp only [exceptBind_ok]
  rw [hmark]
  simp only [Bool.not_true, Bool.false_eq_true, if_false]
  rw [show ((c :: t).map J.str : List J) = (c :: t).map J.str from rfl]
  rw [getLastD_map_str_null]
  have hc2 : pyIn ":" ((c :: t).getLast?.getD "") = true := by
    simpa [List.getLastD_eq_getLast?] using hcolon
  simp [hc2]

/-- Witness for claim C8 at the scenario from the specification:
a ValueError traceback yields kind ValueError and message bad input. -/
theorem C8_witness :
    LiveCodeResult.find_exception_details
      { status := "failed", error_code := none,
        output := ["Traceback (most recent call last):\n", "...\n", "ValueError: bad input\n"].map J.str,
        shapes := [] }
      = .ok (some "ValueError", some "bad input") := by
  have h := C8_classifier_split
      ["Traceback (most recent call last):\n", "...\n", "ValueError: bad input\n"]
      { status := "failed", error_code := none,
        output := ["Traceback (most recent call last):\n", "...\n", "ValueError: bad input\n"].map J.str,
        shapes := [] }
      rfl rfl (by simp) rfl rfl
  simpa using h

theorem lt_not_mem_escCharL (d : Char) : ¬ ('<' ∈ escCharL d) := by
  intro hmem
  unfold escCharL at hmem
  split_ifs at hmem with h1 h2 h3 h4 h5
  · exact absurd hmem (by decide)
  · exact absurd hmem (by decide)
  · exact absurd hmem (by decide)
  · exact absurd hmem (by decide)
  · exact absurd hmem (by decide)
  · simp only [List.mem_singleton] at hmem
    exact h2 hmem.symm

theorem gt_not_mem_escCharL (d : Char) : ¬ ('>' ∈ escCharL d) := by
  intro hmem
  unfold escCharL at hmem
  split_ifs at hmem with h1 h2 h3 h4 h5
  · exact absurd hmem (by decide)
  · exact absurd hmem (by decide)
  · exact absurd hmem (by decide)
  · exact absurd hmem (by decide)
  · exact absurd hmem (by decide)
  · simp only [List.mem_singleton] at hmem
    exact h3 hmem.symm

theorem mem_escList_imp : ∀ (l : List Char) (c : Char),
    c ∈ escList l → ∃ d ∈ l, c ∈ escCharL d := by
  intro l
  induction l with
  | nil => intro c h; simp [escList] at h
  | cons x xs ih =>
      intro c h
      simp only [escList, List.mem_append] at h
      rcases h with h | h
      · exact ⟨x, List.mem_cons_self x xs, h⟩
      · obtain ⟨d, hd, hc⟩ := ih c h
        exact ⟨d, List.mem_cons_of_mem x hd, hc⟩

theorem htmlEscape_no_lt (s : String) : strHasChar (htmlEscape s) '<' = false := by
  unfold strHasChar
  rw [List.any_eq_false]
  intro x hx
  simp only [beq_iff_eq]
  rintro rfl
  obtain ⟨d, _, hmem⟩ := mem_escList_imp s.data '<' hx
  exact lt_not_mem_escCharL d hmem

theorem htmlEscape_no_gt (s : String) : strHasChar (htmlEscape s) '>' = false := by
  unfold strHasChar
  rw [List.any_eq_false]
  intro x hx
  simp only [beq_iff_eq]
  rintro rfl
  obtain ⟨d, _, hmem⟩ := mem_escList_imp s.data '>' hx
  exact gt_not_mem_escCharL d hmem

theorem escCharL_length_pos (c : Char) : 1 ≤ (escCharL c).length := by
  unfold escCharL
  split_ifs <;> simp

theorem escList_length_ge : ∀ l : List Char, l.length ≤ (escList l).length := by
  intro l
  induction l with
  | nil => simp [escList]
  | cons x xs ih =>
      simp only [escList, List.length_append, List.length_cons]
      have := escCharL_length_pos x
      omega

theorem escCharL_meta_two (c : Char) (h : c = '&' ∨ c = '<' ∨ c = '>') :
    2 ≤ (escCharL c).length := by
  rcases h with rfl | rfl | rfl <;> decide

theorem escList_length_gt : ∀ (l : List Char) (c : Char), c ∈ l →
    (c = '&' ∨ c = '<' ∨ c = '>') → l.length < (escList l).length := by
  intro l
  induction l with
  | nil => intro c h; simp at h
  | cons x xs ih =>
      intro c hmem hc
      simp only [escList, List.length_append, List.length_cons]
      rcases List.mem_cons.mp hmem with rfl | hmem2
      · have h2 := escCharL_meta_two c hc
        have h3 := escList_length_ge xs
        omega
      · have h1 := escCharL_length_pos x
        have h4 := ih c hmem2 hc
        omega

theorem htmlEscape_ne_of_meta (s : String) (h : hasMeta s = true) : htmlEscape s ≠ s := by
  intro he
  have hd : escList s.data = s.data := congrArg String.data he
  have hlen : (escList s.data).length = s.data.length := congrArg List.length hd
  have hex : ∃ c ∈ s.data, c = '&' ∨ c = '<' ∨ c = '>' := by
    simp only [hasMeta, strHasChar, Bool.or_eq_true, List.any_eq_true, beq_iff_eq] at h
    rcases h with (h | h) | h
    · obtain ⟨c, hc, hceq⟩ := h
      exact ⟨c, hc, Or.inl hceq⟩
    · obtain ⟨c, hc, hceq⟩ := h
      exact ⟨c, hc, Or.inr (Or.inl hceq)⟩
    · obtain ⟨c, hc, hceq⟩ := h
      exact ⟨c, hc, Or.inr (Or.inr hceq)⟩
  obtain ⟨c, hc, hm⟩ := hex
  have := escList_length_gt s.data c hc hm
  omega

theorem renderItems_mem (entries : List (String × J)) (k : String) (v : J)
    (hmem : (k, v) ∈ entries) (hnn : v ≠ J.null) :
    (hyphenate k, htmlEscape (pyStr v)) ∈ renderItems entries := by
  refine List.mem_filterMap.mpr ⟨(k, v), hmem, ?_⟩
  cases v with
  | null => exact absurd rfl hnn
  | str s => rfl
  | int n => rfl
  | bool b => rfl
  | arr l => rfl
  | obj l => rfl

/-- Claim C9: every non-null attribute value of a shape node is
stringified and HTML-escaped before being embedded in the markup — the
escaped form appears in the rendered attribute items under the hyphenated
name, it contains no raw `<` and no raw `>` character, and whenever the
raw value contains one of `<`, `>`, `&` the escaping really alters it, so
the value is never embedded unescaped in an attribute position. -/
theorem C9_escaped (entries : List (String × J)) (k : String) (v : J)
    (hmem : (k, v) ∈ entries) (hnn : v ≠ J.null) (hm : hasMeta (pyStr v) = true) :
    (hyphenate k, htmlEscape (pyStr v)) ∈ renderItems entries
    ∧ strHasChar (htmlEscape (pyStr v)) '<' = false
    ∧ strHasChar (htmlEscape (pyStr v)) '>' = false
    ∧ htmlEscape (pyStr v) ≠ pyStr v :=
  ⟨renderItems_mem entries k v hmem hnn, htmlEscape_no_lt _, htmlEscape_no_gt _,
   htmlEscape_ne_of_meta _ hm⟩

/-- Witness for claim C9 at a concrete metacharacter-laden attribute. -/
theorem C9_witness :
    (hyphenate "stroke_width", htmlEscape (pyStr (J.str "a<b&c")))
        ∈ renderItems [("stroke_width", J.str "a<b&c")]
    ∧ strHasChar (htmlEscape (pyStr (J.str "a<b&c"))) '<' = false
    ∧ strHasChar (htmlEscape (pyStr (J.str "a<b&c"))) '>' = false
    ∧ htmlEscape (pyStr (J.str "a<b&c")) ≠ pyStr (J.str "a<b&c") :=
  C9_escaped [("stroke_width", J.str "a<b&c")] "stroke_width" (J.str "a<b&c")
    (by simp) (by simp) (by decide)

/-- Counterexample to claim C3 as stated: the renderer is not free of
side effects on its input — rendering a node removes its `tag` (and
`children`) keys, so the post-state differs from the input and a second
call on the same, now mutated, object raises `KeyError` instead of
yielding the same markup again. -/
theorem C3_counterexample :
    _render_shape (J.obj [("tag", J.str "circle"), ("cx", J.str "0")])
      = .ok ("<circle cx=\"0\" />", J.obj [("cx", J.str "0")])
    ∧ J.obj [("cx", J.str "0")] ≠ J.obj [("tag", J.str "circle"), ("cx", J.str "0")]
    ∧ _render_shape (J.obj [("cx", J.str "0")]) = .error (.keyError "tag") := by
  refine ⟨?_, ?_, ?_⟩
  · simp [_render_shape, _render_found_children, dictPop, dictPopD, renderAttrs,
      renderItems, htmlEscape, escList, escCharL, pyStr, hyphenate, List.lookup]
    decide
  · intro h
    injection h with h2
    simp at h2
  · simp [_render_shape, dictPop, List.lookup]

/-- Claim C3 as amended: the renderer is a deterministic function of the
input value — equal shape lists yield byte-identical markup — but it is
not side-effect-free: it pops the `tag` and `children` keys out of each
shape dict, so there is a node whose rendering succeeds while leaving a
post-state that differs from the input and on which a second call raises
`KeyError`. -/
theorem C3_amended :
    (∀ (s1 s2 : List J), s1 = s2 → _render_svg s1 = _render_svg s2)
    ∧ (∃ (n : J) (out : String) (p : J),
        _render_shape n = .ok (out, p) ∧ p ≠ n ∧ _render_shape p = .error (.keyError "tag")) := by
  constructor
  · intro s1 s2 h; rw [h]
  · refine ⟨J.obj [("tag", J.str "circle"), ("cx", J.str "0")], "<circle cx=\"0\" />",
      J.obj [("cx", J.str "0")], ?_, ?_, ?_⟩
    · simp [_render_shape, _render_found_children, dictPop, dictPopD, renderAttrs,
        renderItems, htmlEscape, escList, escCharL, pyStr, hyphenate, List.lookup]
      decide
    · intro h
      injection h with h2
      simp at h2
    · simp [_render_shape, dictPop, List.lookup]

/-- Witness for the amended claim C3 on a concrete shape list. -/
theorem C3_witness :
    _render_svg [J.obj [("tag", J.str "rect")]] = _render_svg [J.obj [("tag", J.str "rect")]] :=
  C3_amended.1 _ _ rfl

/-- Claim C2, the code-level behaviour at the failing input: the
effective `render_svg` (the second definition, which shadows the first
and carries no try/except) propagates exceptions — on a cache miss where
execution succeeds but returns a shape dict lacking the `tag` key, the
call raises `KeyError` instead of returning markup, contradicting the
claim that `render_svg` never raises. -/
theorem C2_render_svg_raises :
    LMSSketch.render_svg (fun _ => "d41d8cd9") []
      ⟨"SKETCH-1", "Sketch", "c = circle()", "python-canvas", none⟩ []
      ⟨true, true,
        [.text (.ok (J.obj [("msgtype", J.str "shape"), ("shape", J.obj [("cx", J.int 0)])])),
         .text (.ok (J.obj [("msgtype", J.str "exitstatus"), ("exitstatus", J.int 0)])),
         .closed]⟩
      = .error (.keyError "tag") := by
  simp [LMSSketch.render_svg, cacheGet, optTruthy, livecode_to_svg, execute, record_code_run,
    LiveCode.execute, _read_messages, processMessages, pyIndex, pyEqStr, pyEqZero,
    LiveCodeResult.init, LiveCodeResult.mark_failed, _render_svg, _render_svg_aux,
    _render_shape, dictPop, List.lookup]

/-- Claim C7: when the cached render path runs on a cache miss and the
execution call returns a result whose status is not `success`, the call
returns the fixed placeholder image and the cache is left unchanged —
nothing is written, so a later successful call can still populate it. -/
theorem C7_failure_not_cached (hashF : String → String) (cache : Cache) (s : Sketch)
    (files : List (String × String)) (net : WsBehavior) (res : LiveCodeResult)
    (hmiss : optTruthy (cacheGet cache ("sketch-" ++ hashF s.code)) = false)
    (hexec : execute s.code false files net = .ok res)
    (hfail : res.status ≠ "success") :
    LMSSketch.render_svg hashF cache s files net = .ok (DEFAULT_IMAGE, cache) := by
  unfold LMSSketch.render_svg
  simp only [hmiss, Bool.false_eq_true, if_false]
  unfold livecode_to_svg
  rw [hexec]
  simp only [exceptBind_ok]
  have hb : (res.status != "success") = true := by simpa [bne_iff_ne] using hfail
  rw [hb]
  simp [optTruthy]

/-- Witness for claim C7 at a concrete connection failure: the
placeholder is returned and the empty cache stays empty. -/
theorem C7_witness :
    LMSSketch.render_svg (fun _ => "h") [] ⟨"SKETCH-1", "t", "c", "python-canvas", none⟩ []
        ⟨false, true, []⟩
      = .ok (DEFAULT_IMAGE, []) :=
  C7_failure_not_cached (fun _ => "h") [] ⟨"SKETCH-1", "t", "c", "python-canvas", none⟩ []
    ⟨false, true, []⟩ (LiveCodeResult.init.mark_failed "connection-failed")
    rfl rfl (by decide)

/-- Claim C10: the effective `render_svg` ignores the runtime field of
the sketch — the second definition of the name shadows the first and calls
`livecode_to_svg` without passing `is_sketch`, which therefore defaults to
`False` — so two sketches identical except for their runtime produce the
same markup, the same sent request, and the request carries an empty
environment (no SKETCH flag) regardless of the runtime. -/
theorem C10_runtime_ignored (s : Sketch) (rt : String) (hashF : String → String)
    (cache : Cache) (files : List (String × String)) (net : WsBehavior) :
    LMSSketch.render_svg hashF cache { s with runtime := rt } files net
      = LMSSketch.render_svg hashF cache s files net
    ∧ sentRequest ({ s with runtime := rt }).code false files net
      = sentRequest s.code false files net
    ∧ (execRequest s.code false files).env = [] :=
  ⟨rfl, rfl, rfl⟩
